import Mathlib

/-
  Verification of the LicenseUnlockStatus component
  (TracktionMarketplaceStatus in juce_TracktionMarketplaceStatus.h)
  and the LV2 state hooks added to AudioProcessor.

  The repository ships only the class header, so the method bodies of
  applyKeyFile, attemptWebserverUnlock, load, save and the default
  doesMarketplaceProductIDMatch are modelled from the specification;
  isUnlocked is inline in the header, and the LV2 hooks appear with
  their bodies in the supplied diff.
-/

namespace Tracktion

/-- Modelled from the spec: an RSA public key, an opaque verification
capability datum (the concrete bignum representation is external). -/
structure RSAKey where
  part1 : String
  part2 : String
deriving DecidableEq, Repr

/-- Modelled from the spec: the in-memory LicenseStatus state container.
`unlocked` is true iff the product is authorized on this machine;
`userEmail` is the last known user-supplied email. -/
structure LicenseState where
  unlocked : Bool
  userEmail : String
deriving DecidableEq, Repr

/-- Modelled from the spec: a LicenseStatus is constructed empty,
with `unlocked = false` and no email. -/
def emptyLicenseState : LicenseState :=
  { unlocked := false, userEmail := "" }

/-- Modelled from the spec: the capabilities a concrete product supplies,
which the repository exposes as pure virtual methods —
getMarketplaceProductID, getPublicKey, and getLocalMachineIDs. -/
structure ProductConfig where
  productID : String
  publicKey : RSAKey
  localMachineIDs : List String
deriving DecidableEq, Repr

/-- Modelled from the spec: the default doesMarketplaceProductIDMatch just
compares the string returned by the server with getMarketplaceProductID
(exact, case-sensitive comparison). -/
def doesMarketplaceProductIDMatch (cfg : ProductConfig) (returnedIDFromServer : String) : Bool :=
  returnedIDFromServer == cfg.productID

/-- Reads the current unlocked status from the in-memory state; a const
read, so the state is returned unchanged alongside the value
(the header body is `return status[unlockedProp]`). -/
def isUnlocked (st : LicenseState) : Bool × LicenseState :=
  (st.unlocked, st)

/-- Modelled from the spec: setUserEmail records the user-supplied email
in the in-memory state; no validation is performed. -/
def setUserEmail (usernameOrEmail : String) (st : LicenseState) : LicenseState :=
  { st with userEmail := usernameOrEmail }

/-- Modelled from the spec: getUserEmail returns the user's email address
if known. -/
def getUserEmail (st : LicenseState) : String :=
  st.userEmail

/-- Modelled from the spec: the serialized form of a LicenseStatus, a
single opaque string handed to the persistence store: a leading flag
character encoding `unlocked`, followed by the email. -/
def serializeState (st : LicenseState) : String :=
  String.mk ((if st.unlocked then 'U' else 'L') :: st.userEmail.data)

/-- Modelled from the spec: deserialization of a persisted string; an
empty string (nothing was ever stored) yields the empty default state,
and deserialization never fails — leniency is deliberate. -/
def deserializeState (s : String) : LicenseState :=
  match s.data with
  | [] => emptyLicenseState
  | c :: rest => { unlocked := c == 'U', userEmail := String.mk rest }

/-- Modelled from the spec: load() fetches the persisted opaque string
from the external store and deserializes it into the in-memory state;
if nothing was stored the state is left at its empty default. -/
def load (stored : String) : LicenseState :=
  deserializeState stored

/-- Modelled from the spec: save() serializes the current in-memory state
to the opaque string handed to the external store. -/
def save (st : LicenseState) : String :=
  serializeState st

/-- Modelled from the spec: case is ignored when comparing machine IDs,
so equality is taken after lower-casing every character. -/
def eqIgnoreCase (a b : String) : Bool :=
  a.data.map Char.toLower == b.data.map Char.toLower

/-- Modelled from the spec: a self-contained signed key-file blob,
carrying a machine-ID list, a signed payload and its signature. -/
structure KeyFileBlob where
  machineIDs : List String
  payload : String
  signature : String
deriving DecidableEq, Repr

/-- Modelled from the spec: at least one local machine ID must match one
in the blob, compared case-insensitively. -/
def machineIDMatches (localIDs blobIDs : List String) : Bool :=
  blobIDs.any (fun b => localIDs.any (fun l => eqIgnoreCase b l))

/-- Modelled from the spec: applyKeyFile verifies the blob's signature
against getPublicKey() and checks that some local machine ID appears in
the blob; on all checks passing it sets `unlocked = true` and returns
true, otherwise it leaves the state unchanged and returns false.
The verification primitive is an external capability, taken as an
argument. No network access. -/
def applyKeyFile (verify : String → String → RSAKey → Bool) (cfg : ProductConfig)
    (blob : KeyFileBlob) (st : LicenseState) : Bool × LicenseState :=
  if verify blob.payload blob.signature cfg.publicKey
      && machineIDMatches cfg.localMachineIDs blob.machineIDs then
    (true, { st with unlocked := true })
  else
    (false, st)

/-- The reply that the server gave in a call to attemptWebserverUnlock:
errorMessage is the webserver-supplied error (or a connection-failure
text), informativeMessage an optional status message to show the user,
urlToLaunch an optional web-page, succeeded true iff the unlock
operation succeeded. -/
structure UnlockResult where
  errorMessage : String
  informativeMessage : String
  urlToLaunch : String
  succeeded : Bool
deriving DecidableEq, Repr

/-- Modelled from the spec: the parsed structured (markup) reply from the
licensing server — a declared product ID, a status code, an optional
signed token (payload plus signature), and optional messages. -/
structure ParsedReply where
  productID : String
  success : Bool
  signedPayload : String
  signature : Option String
  serverErrorMessage : String
  informativeMessage : String
  urlToLaunch : String
deriving DecidableEq, Repr

/-- Modelled from the spec: the outcome of the network round-trip that
readReplyFromWebserver performs — transport failure, a reply body that
cannot be parsed as markup, or a parsed reply. -/
inductive ServerReplyOutcome where
  | connectionFailed : ServerReplyOutcome
  | unparseable : ServerReplyOutcome
  | parsed : ParsedReply → ServerReplyOutcome
deriving DecidableEq, Repr

/-- Modelled from the spec: the generic message used when the reply is
malformed, corrupted, or its proof does not verify. -/
def unexpectedReplyMessage : String :=
  "Unexpected or corrupted reply from the server - please try again."

/-- Modelled from the spec: the message reported when the reply declares
a product ID that does not satisfy productIDMatches. -/
def wrongProductMessage : String :=
  "The server's reply was for a different product ID."

/-- Builds a fully populated failure UnlockResult. -/
def failureResult (msg info url : String) : UnlockResult :=
  { errorMessage := msg, informativeMessage := info, urlToLaunch := url, succeeded := false }

/-- Modelled from the spec: handleFailedConnection builds the generic
connection-error result used on transport failure. -/
def handleFailedConnection : UnlockResult :=
  failureResult "Couldn't connect to the server - please check your internet connection and try again." "" ""

/-- Modelled from the spec: handling of a successfully parsed reply.
A product-ID mismatch is a failure without mutating state; a reply
indicating success unlocks only after its embedded signature verifies
against getPublicKey(); a reply claiming success without a verifiable
signature must NOT unlock; a declared failure surfaces the server's
message, falling back to a generic one when it is empty. -/
def handleServerReply (verify : String → String → RSAKey → Bool) (cfg : ProductConfig)
    (r : ParsedReply) (st : LicenseState) : UnlockResult × LicenseState :=
  if doesMarketplaceProductIDMatch cfg r.productID then
    if r.success then
      match r.signature with
      | some sig =>
        if verify r.signedPayload sig cfg.publicKey then
          ({ errorMessage := "", informativeMessage := r.informativeMessage,
             urlToLaunch := r.urlToLaunch, succeeded := true },
           { st with unlocked := true })
        else
          (failureResult unexpectedReplyMessage r.informativeMessage r.urlToLaunch, st)
      | none =>
        (failureResult unexpectedReplyMessage r.informativeMessage r.urlToLaunch, st)
    else
      (failureResult
        (if r.serverErrorMessage = "" then unexpectedReplyMessage else r.serverErrorMessage)
        r.informativeMessage r.urlToLaunch, st)
  else
    (failureResult wrongProductMessage r.informativeMessage r.urlToLaunch, st)

/-- Modelled from the spec: attemptWebserverUnlock contacts the webserver
and attempts a registration; every transport or protocol outcome is
represented in the returned UnlockResult, never raised. The outcome of
the network fetch capability is taken as an argument. -/
def attemptWebserverUnlock (verify : String → String → RSAKey → Bool) (cfg : ProductConfig)
    (outcome : ServerReplyOutcome) (st : LicenseState) : UnlockResult × LicenseState :=
  match outcome with
  | ServerReplyOutcome.connectionFailed => (handleFailedConnection, st)
  | ServerReplyOutcome.unparseable => (failureResult unexpectedReplyMessage "" "", st)
  | ServerReplyOutcome.parsed r => handleServerReply verify cfg r st

/-- The component together with its persistence store: the in-memory
LicenseStatus plus the opaque persisted string. -/
structure SystemState where
  mem : LicenseState
  store : String
deriving DecidableEq, Repr

/-- The operations of this component that touch the state. -/
inductive Op where
  | setEmail : String → Op
  | applyKey : KeyFileBlob → Op
  | serverUnlock : ServerReplyOutcome → Op
  | doLoad : Op
  | doSave : Op
deriving DecidableEq, Repr

/-- One operation of the component applied to the system state:
setUserEmail and the unlock attempts mutate the in-memory state in
place, load() replaces the in-memory state from the store, save()
captures the in-memory state into the store. -/
def stepSys (verify : String → String → RSAKey → Bool) (cfg : ProductConfig)
    (op : Op) (sys : SystemState) : SystemState :=
  match op with
  | Op.setEmail e => { sys with mem := setUserEmail e sys.mem }
  | Op.applyKey blob => { sys with mem := (applyKeyFile verify cfg blob sys.mem).2 }
  | Op.serverUnlock outcome => { sys with mem := (attemptWebserverUnlock verify cfg outcome sys.mem).2 }
  | Op.doLoad => { sys with mem := load sys.store }
  | Op.doSave => { sys with store := save sys.mem }

end Tracktion

/-- Default LV2 state hook from the AudioProcessor diff:
`getStateInformationString () { return String(); }` — the empty string,
for any processor representation. -/
def getStateInformationString {α : Type} (_processor : α) : String :=
  ""

/-- Default LV2 state hook from the AudioProcessor diff:
`setStateInformationString (const String&) {}` — a no-op leaving the
processor unchanged, for any processor representation. -/
def setStateInformationString {α : Type} (processor : α) (_s : String) : α :=
  processor

namespace Tracktion

theorem applyKeyFile_unlocked_mono (verify : String → String → RSAKey → Bool)
    (cfg : ProductConfig) (blob : KeyFileBlob) (st : LicenseState) (h : st.unlocked = true) :
    (applyKeyFile verify cfg blob st).2.unlocked = true := by
  unfold applyKeyFile
  split <;> simp [h]

theorem applyKeyFile_unlock_source (verify : String → String → RSAKey → Bool)
    (cfg : ProductConfig) (blob : KeyFileBlob) (st : LicenseState) :
    (applyKeyFile verify cfg blob st).2.unlocked = true →
    st.unlocked = true ∨ (applyKeyFile verify cfg blob st).1 = true := by
  unfold applyKeyFile
  split <;> intro h <;> simp_all

theorem handleServerReply_unlocked_mono (verify : String → String → RSAKey → Bool)
    (cfg : ProductConfig) (r : ParsedReply) (st : LicenseState) (h : st.unlocked = true) :
    (handleServerReply verify cfg r st).2.unlocked = true := by
  unfold handleServerReply
  repeat' split
  all_goals simp [h]

theorem handleServerReply_unlock_source (verify : String → String → RSAKey → Bool)
    (cfg : ProductConfig) (r : ParsedReply) (st : LicenseState) :
    (handleServerReply verify cfg r st).2.unlocked = true →
    st.unlocked = true ∨ (handleServerReply verify cfg r st).1.succeeded = true := by
  unfold handleServerReply
  repeat' split
  all_goals intro h
  all_goals simp_all

theorem attemptWebserverUnlock_unlocked_mono (verify : String → String → RSAKey → Bool)
    (cfg : ProductConfig) (outcome : ServerReplyOutcome) (st : LicenseState)
    (h : st.unlocked = true) :
    (attemptWebserverUnlock verify cfg outcome st).2.unlocked = true := by
  cases outcome with
  | connectionFailed => exact h
  | unparseable => exact h
  | parsed r => exact handleServerReply_unlocked_mono verify cfg r st h

theorem attemptWebserverUnlock_unlock_source (verify : String → String → RSAKey → Bool)
    (cfg : ProductConfig) (outcome : ServerReplyOutcome) (st : LicenseState) :
    (attemptWebserverUnlock verify cfg outcome st).2.unlocked = true →
    st.unlocked = true ∨ (attemptWebserverUnlock verify cfg outcome st).1.succeeded = true := by
  cases outcome with
  | connectionFailed => exact fun h => Or.inl h
  | unparseable => exact fun h => Or.inl h
  | parsed r => exact handleServerReply_unlock_source verify cfg r st

theorem load_save_roundtrip (st : LicenseState) : load (save st) = st := by
  cases st with
  | mk u e =>
    cases e with
    | mk l => cases u <;> rfl

end Tracktion

namespace Tracktion

/-- A concrete public key used to evaluate the theorems below. -/
def demoKey : RSAKey :=
  { part1 := "3", part2 := "10001" }

/-- A concrete product configuration used to evaluate the theorems below. -/
def demoCfg : ProductConfig :=
  { productID := "MyProduct", publicKey := demoKey, localMachineIDs := ["abc123", "def456"] }

/-- A concrete key-file blob whose machine-ID list carries the canonical
local machine ID in upper case. -/
def demoBlob : KeyFileBlob :=
  { machineIDs := ["ABC123"], payload := "pay", signature := "sig" }

/-- A concrete parsed server reply that claims success but whose
signature does not verify. -/
def demoSpoof : ParsedReply :=
  { productID := "MyProduct", success := true, signedPayload := "tok",
    signature := some "bad", serverErrorMessage := "",
    informativeMessage := "", urlToLaunch := "" }

/-- C1: for every server reply to the unlock attempt that claims success
but whose embedded signature does not verify against getPublicKey()
(invalid or missing), the returned UnlockResult has succeeded = false
and the in-memory unlocked flag is not set to true. -/
theorem spoofed_success_reply_does_not_unlock (verify : String → String → RSAKey → Bool)
    (cfg : ProductConfig) (r : ParsedReply) (st : LicenseState)
    (_hclaims : r.success = true)
    (hsig : ∀ sig, r.signature = some sig → verify r.signedPayload sig cfg.publicKey = false) :
    (attemptWebserverUnlock verify cfg (ServerReplyOutcome.parsed r) st).1.succeeded = false ∧
    (attemptWebserverUnlock verify cfg (ServerReplyOutcome.parsed r) st).2.unlocked = st.unlocked := by
  unfold attemptWebserverUnlock handleServerReply
  cases hs : r.signature with
  | none => repeat' split
            all_goals simp_all [failureResult]
  | some sig =>
    have hv := hsig sig hs
    repeat' split
    all_goals simp_all [failureResult]

/-- C1 witness: a spoofed success reply with a bad signature leaves the
empty state locked and reports failure. -/
theorem spoofed_success_reply_does_not_unlock_witness :
    (attemptWebserverUnlock (fun _ _ _ => false) demoCfg
        (ServerReplyOutcome.parsed demoSpoof) emptyLicenseState).1.succeeded = false ∧
    (attemptWebserverUnlock (fun _ _ _ => false) demoCfg
        (ServerReplyOutcome.parsed demoSpoof) emptyLicenseState).2.unlocked = emptyLicenseState.unlocked :=
  spoofed_success_reply_does_not_unlock (fun _ _ _ => false) demoCfg demoSpoof
    emptyLicenseState rfl (fun _ _ => rfl)

end Tracktion

namespace Tracktion

/-- C2: an instance constructed in the empty state is locked, and a step
of the component turns the unlocked flag true only through a successful
applyKeyFile, a succeeded attemptWebserverUnlock, or a load() restoring
a persisted unlocked state; no other operation (setUserEmail, save,
failed unlock attempts) ever sets unlocked to true. -/
theorem unlocked_only_via_unlock_paths (verify : String → String → RSAKey → Bool)
    (cfg : ProductConfig) (op : Op) (sys : SystemState)
    (h : (stepSys verify cfg op sys).mem.unlocked = true) :
    (isUnlocked emptyLicenseState).1 = false ∧
    (sys.mem.unlocked = true ∨
     (∃ blob, op = Op.applyKey blob ∧ (applyKeyFile verify cfg blob sys.mem).1 = true) ∨
     (∃ outcome, op = Op.serverUnlock outcome ∧
        (attemptWebserverUnlock verify cfg outcome sys.mem).1.succeeded = true) ∨
     (op = Op.doLoad ∧ (load sys.store).unlocked = true)) := by
  refine ⟨rfl, ?_⟩
  cases op with
  | setEmail e => exact Or.inl h
  | applyKey blob =>
    rcases applyKeyFile_unlock_source verify cfg blob sys.mem h with h1 | h1
    · exact Or.inl h1
    · exact Or.inr (Or.inl ⟨blob, rfl, h1⟩)
  | serverUnlock outcome =>
    rcases attemptWebserverUnlock_unlock_source verify cfg outcome sys.mem h with h1 | h1
    · exact Or.inl h1
    · exact Or.inr (Or.inr (Or.inl ⟨outcome, rfl, h1⟩))
  | doLoad => exact Or.inr (Or.inr (Or.inr ⟨rfl, h⟩))
  | doSave => exact Or.inl h

/-- C2 witness: evaluated at a save() step on an already-unlocked state. -/
theorem unlocked_only_via_unlock_paths_witness :
    (isUnlocked emptyLicenseState).1 = false ∧
    (({ mem := { unlocked := true, userEmail := "e" }, store := "s" } : SystemState).mem.unlocked = true ∨
     (∃ blob, Op.doSave = Op.applyKey blob ∧
        (applyKeyFile (fun _ _ _ => false) demoCfg blob
          ({ mem := { unlocked := true, userEmail := "e" }, store := "s" } : SystemState).mem).1 = true) ∨
     (∃ outcome, Op.doSave = Op.serverUnlock outcome ∧
        (attemptWebserverUnlock (fun _ _ _ => false) demoCfg outcome
          ({ mem := { unlocked := true, userEmail := "e" }, store := "s" } : SystemState).mem).1.succeeded = true) ∨
     (Op.doSave = Op.doLoad ∧
        (load ({ mem := { unlocked := true, userEmail := "e" }, store := "s" } : SystemState).store).unlocked = true)) :=
  unlocked_only_via_unlock_paths (fun _ _ _ => false) demoCfg Op.doSave
    { mem := { unlocked := true, userEmail := "e" }, store := "s" } rfl

/-- C3: applyKeyFile returns false and leaves the entire in-memory state
unchanged when any of its checks fails (the signature does not verify
against getPublicKey(), or no local machine ID matches one in the
blob), and sets unlocked = true and returns true when all checks
pass. -/
theorem applyKeyFile_checks (verify : String → String → RSAKey → Bool)
    (cfg : ProductConfig) (blob : KeyFileBlob) (st : LicenseState) :
    ((verify blob.payload blob.signature cfg.publicKey
        && machineIDMatches cfg.localMachineIDs blob.machineIDs) = false →
      applyKeyFile verify cfg blob st = (false, st)) ∧
    ((verify blob.payload blob.signature cfg.publicKey
        && machineIDMatches cfg.localMachineIDs blob.machineIDs) = true →
      applyKeyFile verify cfg blob st = (true, { st with unlocked := true })) := by
  constructor <;> intro h <;> simp [applyKeyFile, h]

/-- C3 witness: a blob whose signature fails to verify is rejected and
the state is returned untouched. -/
theorem applyKeyFile_checks_witness :
    applyKeyFile (fun _ _ _ => false) demoCfg demoBlob emptyLicenseState =
      (false, emptyLicenseState) :=
  (applyKeyFile_checks (fun _ _ _ => false) demoCfg demoBlob emptyLicenseState).1 rfl

/-- C4: attemptWebserverUnlock always returns an UnlockResult (it is a
total function of the transport outcome); whenever the outcome is a
failure, the result carries succeeded = false together with a non-empty
errorMessage, and the in-memory state is unchanged. -/
theorem failure_outcomes_are_values (verify : String → String → RSAKey → Bool)
    (cfg : ProductConfig) (outcome : ServerReplyOutcome) (st : LicenseState)
    (hfail : (attemptWebserverUnlock verify cfg outcome st).1.succeeded = false) :
    (attemptWebserverUnlock verify cfg outcome st).1.errorMessage ≠ "" ∧
    (attemptWebserverUnlock verify cfg outcome st).2 = st := by
  cases outcome with
  | connectionFailed =>
    refine ⟨?_, rfl⟩
    simp [attemptWebserverUnlock, handleFailedConnection, failureResult]
  | unparseable =>
    refine ⟨?_, rfl⟩
    simp [attemptWebserverUnlock, failureResult, unexpectedReplyMessage]
  | parsed r =>
    unfold attemptWebserverUnlock handleServerReply at hfail ⊢
    repeat' split
    all_goals simp_all [failureResult, unexpectedReplyMessage, wrongProductMessage]

/-- C4 witness: a non-parseable reply body yields a failure with a
non-empty error message, leaving the empty state untouched. -/
theorem failure_outcomes_are_values_witness :
    (attemptWebserverUnlock (fun _ _ _ => false) demoCfg
        ServerReplyOutcome.unparseable emptyLicenseState).1.errorMessage ≠ "" ∧
    (attemptWebserverUnlock (fun _ _ _ => false) demoCfg
        ServerReplyOutcome.unparseable emptyLicenseState).2 = emptyLicenseState :=
  failure_outcomes_are_values (fun _ _ _ => false) demoCfg
    ServerReplyOutcome.unparseable emptyLicenseState rfl

end Tracktion

namespace Tracktion

/-- C5: save() on one instance followed by load() on a fresh instance
backed by the same persistence store reproduces the saved unlocked flag
and userEmail (persistence round-trip). -/
theorem save_load_reproduces_state (st : LicenseState) :
    (load (save st)).unlocked = st.unlocked ∧
    (load (save st)).userEmail = st.userEmail := by
  rw [load_save_roundtrip]
  exact ⟨rfl, rfl⟩

/-- C6 counterexample: the claim that no operation — including load() —
ever takes an unlocked instance back to locked fails: on an unlocked
in-memory state whose store was never written, load() restores the
empty default and clears the unlocked flag. -/
theorem unlocked_reverts_on_stale_load :
    ({ mem := { unlocked := true, userEmail := "" }, store := "" } : SystemState).mem.unlocked = true ∧
    (stepSys (fun _ _ _ => true) demoCfg Op.doLoad
        { mem := { unlocked := true, userEmail := "" }, store := "" }).mem.unlocked = false :=
  ⟨rfl, rfl⟩

/-- C6 amended: once unlocked, every operation other than load() — save,
setUserEmail, failed applyKeyFile, failed attemptServerUnlock —
preserves the unlocked state, and load() preserves it whenever the
store holds the saved unlocked state (in particular right after
save()). -/
theorem unlocked_terminal_except_stale_load (verify : String → String → RSAKey → Bool)
    (cfg : ProductConfig) (sys : SystemState) (op : Op)
    (h : sys.mem.unlocked = true) (hop : op ≠ Op.doLoad) :
    (stepSys verify cfg op sys).mem.unlocked = true ∧
    (stepSys verify cfg Op.doLoad (stepSys verify cfg Op.doSave sys)).mem.unlocked = true := by
  constructor
  · cases op with
    | setEmail e => exact h
    | applyKey blob => exact applyKeyFile_unlocked_mono verify cfg blob sys.mem h
    | serverUnlock outcome => exact attemptWebserverUnlock_unlocked_mono verify cfg outcome sys.mem h
    | doLoad => exact absurd rfl hop
    | doSave => exact h
  · show (load (save sys.mem)).unlocked = true
    rw [load_save_roundtrip]
    exact h

/-- C6 amended witness: evaluated at a failed key-file application on an
unlocked state, followed by a save-then-load round trip. -/
theorem unlocked_terminal_except_stale_load_witness :
    (stepSys (fun _ _ _ => false) demoCfg (Op.applyKey demoBlob)
        { mem := { unlocked := true, userEmail := "e" }, store := "" }).mem.unlocked = true ∧
    (stepSys (fun _ _ _ => false) demoCfg Op.doLoad
        (stepSys (fun _ _ _ => false) demoCfg Op.doSave
          { mem := { unlocked := true, userEmail := "e" }, store := "" })).mem.unlocked = true :=
  unlocked_terminal_except_stale_load (fun _ _ _ => false) demoCfg
    { mem := { unlocked := true, userEmail := "e" }, store := "" }
    (Op.applyKey demoBlob) rfl (by decide)

/-- C7: a key-file blob that verifies against getPublicKey() and whose
machine-ID list contains the canonical (first) local machine ID in any
letter-case variation makes applyKeyFile return true and set
unlocked = true; machine-ID comparison is case-insensitive. -/
theorem applyKeyFile_canonical_id_case_insensitive (verify : String → String → RSAKey → Bool)
    (cfg : ProductConfig) (blob : KeyFileBlob) (st : LicenseState)
    (canonical : String) (rest : List String)
    (hloc : cfg.localMachineIDs = canonical :: rest)
    (hv : verify blob.payload blob.signature cfg.publicKey = true)
    (hid : ∃ b ∈ blob.machineIDs, eqIgnoreCase b canonical = true) :
    applyKeyFile verify cfg blob st = (true, { st with unlocked := true }) := by
  obtain ⟨b, hb, heq⟩ := hid
  have hm : machineIDMatches cfg.localMachineIDs blob.machineIDs = true := by
    rw [hloc]
    simp only [machineIDMatches, List.any_eq_true]
    exact ⟨b, hb, by simp [heq]⟩
  simp [applyKeyFile, hv, hm]

/-- C7 witness: a validly signed blob carrying the canonical machine ID
in upper case unlocks a state whose canonical local ID is lower case. -/
theorem applyKeyFile_canonical_id_case_insensitive_witness :
    applyKeyFile (fun _ _ _ => true) demoCfg demoBlob emptyLicenseState =
      (true, { emptyLicenseState with unlocked := true }) :=
  applyKeyFile_canonical_id_case_insensitive (fun _ _ _ => true) demoCfg demoBlob
    emptyLicenseState "abc123" ["def456"] rfl rfl ⟨"ABC123", by decide, by decide⟩

/-- C8: the default productIDMatches implementation returns true exactly
when its argument equals getProductID() (case-sensitive exact match),
and false for every other string. -/
theorem doesMarketplaceProductIDMatch_iff (cfg : ProductConfig) (s : String) :
    doesMarketplaceProductIDMatch cfg s = true ↔ s = cfg.productID := by
  simp [doesMarketplaceProductIDMatch]

/-- C9: isUnlocked is a pure read: it leaves every field of the state
unchanged and returns true exactly when the state records
unlocked = true. -/
theorem isUnlocked_pure_read (st : LicenseState) :
    (isUnlocked st).2 = st ∧ ((isUnlocked st).1 = true ↔ st.unlocked = true) :=
  ⟨rfl, Iff.rfl⟩

end Tracktion

/-- C10: the default LV2 state hooks of AudioProcessor are trivially
safe: getStateInformationString returns the empty string and
setStateInformationString is a no-op for every input string, leaving
the processor's state entirely unchanged, for every processor that does
not override them. -/
theorem lv2_state_hooks_default (α : Type) (p : α) (s : String) :
    getStateInformationString p = "" ∧ setStateInformationString p s = p :=
  ⟨rfl, rfl⟩
